import Mathlib

/-!
Shallow embedding of the `logger` package of the redis-manager repository
(`src/unnamed/part_000`), together with proofs about its level-routing and
encoding pipeline.  Filesystem interaction (`os.Stat`, `os.Mkdir`,
`os.OpenFile`) is modelled by an explicit `World` of outcomes and a trace of
`Effect`s; the process-wide `sugaredLogger` global is modelled by explicit
state passing (`prev` in, new state out).  The closure
`func(lvl zapcore.Level) bool { return lvl == level }` is modelled with
per-iteration binding of the loop variable, as Go (since 1.22) defines for
`for ... range` loops.
-/

/-- The zapcore severity levels, in zapcore's order.  The repository's
`setupCores` enumerates all seven of these (including both `DPanicLevel` and
`PanicLevel`). -/
inductive Level where
  | debug
  | info
  | warn
  | error
  | dpanic
  | panic
  | fatal
  deriving DecidableEq, Repr

/-- Models `zapcore.Level.String()`: the canonical lowercase name of a
level. -/
def Level.string : Level → String
  | .debug => "debug"
  | .info => "info"
  | .warn => "warn"
  | .error => "error"
  | .dpanic => "dpanic"
  | .panic => "panic"
  | .fatal => "fatal"

/-- Models `zapcore.Level.CapitalString()`: the all-caps name of a level. -/
def Level.capitalString : Level → String
  | .debug => "DEBUG"
  | .info => "INFO"
  | .warn => "WARN"
  | .error => "ERROR"
  | .dpanic => "DPANIC"
  | .panic => "PANIC"
  | .fatal => "FATAL"

/-- ANSI color code assigned to each level by zapcore's color level
encoders (magenta for debug, blue for info, yellow for warn, red
otherwise). -/
def Level.colorCode : Level → Nat
  | .debug => 35
  | .info => 34
  | .warn => 33
  | _ => 31

/-- Wrap a string in the ANSI escape sequence for the given color code, as
zapcore's colored level strings do. -/
def colorize (code : Nat) (s : String) : String :=
  "\x1b[" ++ toString code ++ "m" ++ s ++ "\x1b[0m"

/-- The level encoder selected by `ZapConfig.LevelEncoder`: either the
custom closure appending `"[" + CapitalString + "]"`, or one of the four
named zapcore level encoders. -/
inductive LevelEncoderKind where
  | custom
  | lowercase
  | capital
  | lowercaseColor
  | capitalColor
  deriving DecidableEq, Repr

/-- The level token each encoder kind renders for a level, following the
custom closure in `ZapConfig.LevelEncoder` and the four zapcore library
encoders. -/
def renderLevel : LevelEncoderKind → Level → String
  | .custom, l => "[" ++ l.capitalString ++ "]"
  | .lowercase, l => l.string
  | .capital, l => l.capitalString
  | .lowercaseColor, l => colorize l.colorCode l.string
  | .capitalColor, l => colorize l.colorCode l.capitalString

/-- Caller encoders of zapcore; the repository's `EncoderConfig` always uses
`zapcore.ShortCallerEncoder`. -/
inductive CallerEncoderKind where
  | short
  | full
  deriving DecidableEq, Repr

/-- Models `zapcore.EncoderConfig` as instantiated by
`ZapConfig.EncoderConfig` (fixed field keys, fixed time layout, short caller
encoder; only the stack-trace key and level encoder vary). -/
structure Zapcore.EncoderConfig where
  timeKey : String
  levelKey : String
  nameKey : String
  callerKey : String
  messageKey : String
  stacktraceKey : String
  lineEnding : String
  encodeLevel : LevelEncoderKind
  timeLayout : String
  encodeCaller : CallerEncoderKind
  deriving DecidableEq, Repr

/-- Models the `ZapConfig` struct: configuration for the logger. -/
structure ZapConfig where
  Level : String
  Prefix : String
  Format : String
  Director : String
  EncodeLevel : String
  StacktraceKey : String
  ShowLine : Bool
  LogInConsole : Bool
  RetentionDay : Int
  CustomLevelEncoder : Bool
  deriving DecidableEq, Repr

/-- Models `(*ZapConfig).LevelEncoder`: the custom bracketed closure when
`CustomLevelEncoder` is set, otherwise a switch over `EncodeLevel` with
`CapitalLevelEncoder` as default. -/
def ZapConfig.LevelEncoder (c : ZapConfig) : LevelEncoderKind :=
  if c.CustomLevelEncoder then
    .custom
  else if c.EncodeLevel == "lowercase" then
    .lowercase
  else if c.EncodeLevel == "capital" then
    .capital
  else if c.EncodeLevel == "lowercaseColor" then
    .lowercaseColor
  else if c.EncodeLevel == "capitalColor" then
    .capitalColor
  else
    .capital

/-- Models `(*ZapConfig).EncoderConfig`: fixed keys `time`, `level`,
`logger`, `caller`, `msg`; the configured stack-trace key; default line
ending; the selected level encoder; the custom time layout
`2006-01-02 15:04:05.000`; the short caller encoder. -/
def ZapConfig.EncoderConfig (c : ZapConfig) : Zapcore.EncoderConfig :=
  { timeKey := "time"
    levelKey := "level"
    nameKey := "logger"
    callerKey := "caller"
    messageKey := "msg"
    stacktraceKey := c.StacktraceKey
    lineEnding := "\n"
    encodeLevel := c.LevelEncoder
    timeLayout := "2006-01-02 15:04:05.000"
    encodeCaller := .short }

/-- The flags of an `os.OpenFile` call that matter to the spec. -/
structure OpenMode where
  append : Bool
  create : Bool
  writeOnly : Bool
  truncate : Bool
  deriving DecidableEq, Repr

/-- The mode `getLogWriter` opens files with:
`os.O_APPEND | os.O_CREATE | os.O_WRONLY` (and no `O_TRUNC`). -/
def logOpenMode : OpenMode :=
  { append := true, create := true, writeOnly := true, truncate := false }

/-- Outcome of `os.Stat` on a path: success, a not-exist error, or some
other error. -/
inductive StatResult where
  | ok
  | notExist
  | otherError
  deriving DecidableEq, Repr

/-- The filesystem outcomes the logger initialization can observe: the
result of statting the configured directory, whether `os.Mkdir` on it
succeeds, and whether `os.OpenFile` succeeds at each path. -/
structure World where
  statDirector : StatResult
  mkdirOk : Bool
  openOk : String → Bool

/-- Filesystem side effects performed during initialization.  `mkdir` is
`os.Mkdir` (a single directory level); `mkdirAll` (recursive creation) is
never emitted by this code but is distinguished so that its absence is a
statement. -/
inductive Effect where
  | statDir (path : String)
  | mkdir (path : String)
  | mkdirAll (path : String)
  | openFile (path : String) (mode : OpenMode)
  deriving DecidableEq, Repr

/-- Models `filepath.Join(dir, name)` for the clean inputs this code uses:
the two components joined with a separator (an empty directory yields the
bare name). -/
def filepathJoin (dir name : String) : String :=
  if dir == "" then name else dir ++ "/" ++ name

/-- Models `pathExists`: `(true, nil)` on a successful stat,
`(false, nil)` when the error is a not-exist error, `(false, err)`
otherwise. -/
def pathExists : StatResult → Bool × Option String
  | .ok => (true, none)
  | .notExist => (false, none)
  | .otherError => (false, some "stat error")

/-- Models `zapcore.WriteSyncer` as produced by `getLogWriter`: identified
by the file path it writes to. -/
structure WriteSyncer where
  path : String
  deriving DecidableEq, Repr

/-- Models `getLogWriter`: joins the configured directory with the filename
and opens that path with `os.O_APPEND | os.O_CREATE | os.O_WRONLY`,
returning the wrapped file on success and the error otherwise.  Also
returns the open effect performed. -/
def getLogWriter (w : World) (cfg : ZapConfig) (filename : String) :
    Effect × Except String WriteSyncer :=
  let fp := filepathJoin cfg.Director filename
  (Effect.openFile fp logOpenMode,
    if w.openOk fp then Except.ok ⟨fp⟩ else Except.error ("open " ++ fp))

/-- The record encoder selected in `setupCores`: a JSON encoder when
`Format == "json"`, a console encoder otherwise, over the derived encoder
configuration. -/
inductive Encoder where
  | jsonEncoder (cfg : Zapcore.EncoderConfig)
  | consoleEncoder (cfg : Zapcore.EncoderConfig)
  deriving DecidableEq, Repr

/-- The encoder chosen by `setupCores` from the configuration. -/
def encoderOf (cfg : ZapConfig) : Encoder :=
  if cfg.Format == "json" then Encoder.jsonEncoder cfg.EncoderConfig
  else Encoder.consoleEncoder cfg.EncoderConfig

/-- Models a `zapcore.Core` built by `zapcore.NewCore(encoder, writer,
zap.LevelEnablerFunc(func(lvl) bool { return lvl == level }))`: the shared
encoder, the per-level writer, and the captured loop level that the enabler
closure compares against. -/
structure Core where
  encoder : Encoder
  writerPath : String
  enabledLevel : Level
  deriving DecidableEq, Repr

/-- The level-enabler predicate of a core:
`func(lvl zapcore.Level) bool { return lvl == level }`. -/
def Core.enabledFor (core : Core) (lvl : Level) : Bool :=
  lvl == core.enabledLevel

/-- The `levels` slice of `setupCores`: all seven zapcore levels, in
order. -/
def levels : List Level :=
  [.debug, .info, .warn, .error, .dpanic, .panic, .fatal]

/-- The loop of `setupCores`: for each level in order, open the writer for
`<level>.log`; on the first failure return the wrapped error (performing no
further opens); otherwise build the core for that level and continue. -/
def setupCoresLoop (w : World) (cfg : ZapConfig) (enc : Encoder) :
    List Level → List Effect × Except String (List Core)
  | [] => ([], Except.ok [])
  | level :: rest =>
    let (eff, r) := getLogWriter w cfg (level.string ++ ".log")
    match r with
    | Except.error e =>
      ([eff], Except.error ("failed to create log file for level " ++ level.string ++ ": " ++ e))
    | Except.ok writer =>
      let core : Core := ⟨enc, writer.path, level⟩
      let (effs, r2) := setupCoresLoop w cfg enc rest
      (eff :: effs,
        match r2 with
        | Except.error e2 => Except.error e2
        | Except.ok cores => Except.ok (core :: cores))

/-- Models `setupCores`: selects the encoder from `Format`, then runs the
per-level loop over `levels`, returning the performed open effects and
either the cores in order or the first error. -/
def setupCores (w : World) (cfg : ZapConfig) :
    List Effect × Except String (List Core) :=
  setupCoresLoop w cfg (encoderOf cfg) levels

/-- Models the logger value installed in the `sugaredLogger` global:
`zap.New(zapcore.NewTee(cores...), zap.AddCaller()).Sugar()`. -/
structure LoggerState where
  cores : List Core
  addCaller : Bool
  deriving DecidableEq, Repr

/-- The outcome of `initLogger`: the filesystem effects performed, the
value of the `sugaredLogger` global after the call (given its value
before), and the returned error, if any. -/
structure InitResult where
  effects : List Effect
  newState : Option LoggerState
  result : Except String Unit
  deriving Repr

/-- The tail of `initLogger` after the directory phase: build the cores;
on error return it with the global unchanged; on success install the tee
of the cores with `zap.AddCaller()`. -/
def initLoggerCores (w : World) (cfg : ZapConfig) (prev : Option LoggerState)
    (dirEffs : List Effect) : InitResult :=
  let (openEffs, r) := setupCores w cfg
  match r with
  | Except.error e => ⟨dirEffs ++ openEffs, prev, Except.error e⟩
  | Except.ok cores =>
    ⟨dirEffs ++ openEffs, some ⟨cores, true⟩, Except.ok ()⟩

/-- Models `initLogger`: if `pathExists` on the configured directory says
the path is absent (its error, if any, is discarded), attempt `os.Mkdir`
on it and abort with an error if that fails; then build the cores and
install the logger. -/
def initLogger (w : World) (cfg : ZapConfig) (prev : Option LoggerState) :
    InitResult :=
  let statEffs := [Effect.statDir cfg.Director]
  let (ok, _) := pathExists w.statDirector
  if ok then
    initLoggerCores w cfg prev statEffs
  else
    let effs := statEffs ++ [Effect.mkdir cfg.Director]
    if w.mkdirOk then
      initLoggerCores w cfg prev effs
    else
      ⟨effs, prev, Except.error ("failed to create directory " ++ cfg.Director)⟩

/-- The core `setupCores` builds for a level: the shared encoder, the
writer for `<Director>/<level>.log`, and the level itself as the enabler's
comparison value. -/
def coreFor (cfg : ZapConfig) (enc : Encoder) (l : Level) : Core :=
  ⟨enc, filepathJoin cfg.Director (l.string ++ ".log"), l⟩

/-- The open effect `setupCores` performs for a level. -/
def openEffFor (cfg : ZapConfig) (l : Level) : Effect :=
  Effect.openFile (filepathJoin cfg.Director (l.string ++ ".log")) logOpenMode

/-- Whether an effect is a file open. -/
def Effect.isOpenFile : Effect → Bool
  | .openFile _ _ => true
  | _ => false

/-- Whether an effect is a directory creation (single-level or
recursive). -/
def Effect.isMkdirLike : Effect → Bool
  | .mkdir _ => true
  | .mkdirAll _ => true
  | _ => false

theorem setupCoresLoop_ok (w : World) (cfg : ZapConfig) (enc : Encoder) :
    ∀ ls cores, (setupCoresLoop w cfg enc ls).2 = Except.ok cores →
      cores = ls.map (coreFor cfg enc) ∧
      (setupCoresLoop w cfg enc ls).1 = ls.map (openEffFor cfg) := by
  intro ls
  induction ls with
  | nil =>
    intro cores h
    injection h with h
    exact ⟨h.symm, rfl⟩
  | cons l rest ih =>
    intro cores h
    by_cases hopen : w.openOk (filepathJoin cfg.Director (l.string ++ ".log")) = true
    · simp only [setupCoresLoop, getLogWriter, hopen, if_true] at h ⊢
      rcases h2 : (setupCoresLoop w cfg enc rest).2 with e2 | cores2
      · rw [h2] at h
        simp at h
      · rw [h2] at h
        simp only [Except.ok.injEq] at h
        obtain ⟨hc, he⟩ := ih cores2 h2
        subst hc
        constructor
        · rw [← h]
          simp [coreFor, List.map_cons]
        · simp [he, openEffFor]
    · simp only [setupCoresLoop, getLogWriter, hopen, if_false, Bool.false_eq_true,
        ite_false] at h
      simp at h
theorem setupCoresLoop_effects (w : World) (cfg : ZapConfig) (enc : Encoder) :
    ∀ ls, ∀ e ∈ (setupCoresLoop w cfg enc ls).1, ∃ l ∈ ls, e = openEffFor cfg l := by
  intro ls
  induction ls with
  | nil =>
    intro e he
    simp [setupCoresLoop] at he
  | cons l rest ih =>
    intro e he
    by_cases hopen : w.openOk (filepathJoin cfg.Director (l.string ++ ".log")) = true
    · simp only [setupCoresLoop, getLogWriter, hopen, if_true, List.mem_cons] at he
      rcases he with he | he
      · exact ⟨l, by simp, by simp [he, openEffFor]⟩
      · obtain ⟨l2, hl2, he2⟩ := ih e he
        exact ⟨l2, by simp [hl2], he2⟩
    · simp only [setupCoresLoop, getLogWriter, hopen, if_false, Bool.false_eq_true,
        ite_false, List.mem_singleton] at he
      exact ⟨l, by simp, by simp [he, openEffFor]⟩

theorem initLoggerCores_ok_state (w : World) (cfg : ZapConfig)
    (prev : Option LoggerState) (dirEffs : List Effect)
    (h : (initLoggerCores w cfg prev dirEffs).result = Except.ok ()) :
    (initLoggerCores w cfg prev dirEffs).newState =
      some ⟨levels.map (coreFor cfg (encoderOf cfg)), true⟩ := by
  rcases hsc : (setupCores w cfg) with ⟨openEffs, r⟩
  cases r with
  | error e =>
    simp [initLoggerCores, hsc] at h
  | ok cores =>
    have h2 : (setupCoresLoop w cfg (encoderOf cfg) levels).2 = Except.ok cores := by
      rw [show setupCoresLoop w cfg (encoderOf cfg) levels = setupCores w cfg from rfl, hsc]
    obtain ⟨hc, -⟩ := setupCoresLoop_ok w cfg (encoderOf cfg) levels cores h2
    simp [initLoggerCores, hsc, hc]

theorem initLoggerCores_error_state (w : World) (cfg : ZapConfig)
    (prev : Option LoggerState) (dirEffs : List Effect) (e : String)
    (h : (initLoggerCores w cfg prev dirEffs).result = Except.error e) :
    (initLoggerCores w cfg prev dirEffs).newState = prev := by
  rcases hsc : (setupCores w cfg) with ⟨openEffs, r⟩
  cases r with
  | error e2 => simp [initLoggerCores, hsc]
  | ok cores => simp [initLoggerCores, hsc] at h

theorem initLoggerCores_ok_effects (w : World) (cfg : ZapConfig)
    (prev : Option LoggerState) (dirEffs : List Effect)
    (h : (initLoggerCores w cfg prev dirEffs).result = Except.ok ()) :
    (initLoggerCores w cfg prev dirEffs).effects =
      dirEffs ++ levels.map (openEffFor cfg) := by
  rcases hsc : (setupCores w cfg) with ⟨openEffs, r⟩
  cases r with
  | error e =>
    simp [initLoggerCores, hsc] at h
  | ok cores =>
    have h2 : (setupCoresLoop w cfg (encoderOf cfg) levels).2 = Except.ok cores := by
      rw [show setupCoresLoop w cfg (encoderOf cfg) levels = setupCores w cfg from rfl, hsc]
    obtain ⟨-, he⟩ := setupCoresLoop_ok w cfg (encoderOf cfg) levels cores h2
    have he2 : openEffs = levels.map (openEffFor cfg) := by
      rw [← he, show setupCoresLoop w cfg (encoderOf cfg) levels = setupCores w cfg from rfl, hsc]
    simp [initLoggerCores, hsc, he2]

theorem initLoggerCores_effects_shape (w : World) (cfg : ZapConfig)
    (prev : Option LoggerState) (dirEffs : List Effect) :
    ∀ e ∈ (initLoggerCores w cfg prev dirEffs).effects,
      e ∈ dirEffs ∨ ∃ l ∈ levels, e = openEffFor cfg l := by
  intro e he
  rcases hsc : (setupCores w cfg) with ⟨openEffs, r⟩
  have hopen : ∀ x ∈ openEffs, ∃ l ∈ levels, x = openEffFor cfg l := by
    intro x hx
    apply setupCoresLoop_effects w cfg (encoderOf cfg) levels
    rw [show (setupCoresLoop w cfg (encoderOf cfg) levels).1 = (setupCores w cfg).1 from rfl, hsc]
    exact hx
  cases r with
  | error e2 =>
    simp only [initLoggerCores, hsc, List.mem_append] at he
    rcases he with he | he
    · exact Or.inl he
    · exact Or.inr (hopen e he)
  | ok cores =>
    simp only [initLoggerCores, hsc, List.mem_append] at he
    rcases he with he | he
    · exact Or.inl he
    · exact Or.inr (hopen e he)

theorem initLogger_cases (w : World) (cfg : ZapConfig) (prev : Option LoggerState) :
    (initLogger w cfg prev =
      initLoggerCores w cfg prev [Effect.statDir cfg.Director] ∧
      (pathExists w.statDirector).1 = true) ∨
    (initLogger w cfg prev =
      initLoggerCores w cfg prev [Effect.statDir cfg.Director, Effect.mkdir cfg.Director] ∧
      (pathExists w.statDirector).1 = false ∧ w.mkdirOk = true) ∨
    (initLogger w cfg prev =
      ⟨[Effect.statDir cfg.Director, Effect.mkdir cfg.Director], prev,
        Except.error ("failed to create directory " ++ cfg.Director)⟩ ∧
      (pathExists w.statDirector).1 = false ∧ w.mkdirOk = false) := by
  by_cases hok : (pathExists w.statDirector).1 = true
  · exact Or.inl ⟨by simp [initLogger, hok], hok⟩
  · rw [Bool.not_eq_true] at hok
    by_cases hmk : w.mkdirOk = true
    · exact Or.inr (Or.inl ⟨by simp [initLogger, hok, hmk], hok, hmk⟩)
    · rw [Bool.not_eq_true] at hmk
      exact Or.inr (Or.inr ⟨by simp [initLogger, hok, hmk], hok, hmk⟩)

theorem initLogger_ok_state (w : World) (cfg : ZapConfig) (prev : Option LoggerState)
    (h : (initLogger w cfg prev).result = Except.ok ()) :
    (initLogger w cfg prev).newState =
      some ⟨levels.map (coreFor cfg (encoderOf cfg)), true⟩ := by
  rcases initLogger_cases w cfg prev with ⟨heq, -⟩ | ⟨heq, -⟩ | ⟨heq, -⟩
  · rw [heq] at h ⊢
    exact initLoggerCores_ok_state w cfg prev _ h
  · rw [heq] at h ⊢
    exact initLoggerCores_ok_state w cfg prev _ h
  · rw [heq] at h
    simp at h

theorem initLogger_error_state (w : World) (cfg : ZapConfig) (prev : Option LoggerState)
    (e : String) (h : (initLogger w cfg prev).result = Except.error e) :
    (initLogger w cfg prev).newState = prev := by
  rcases initLogger_cases w cfg prev with ⟨heq, -⟩ | ⟨heq, -⟩ | ⟨heq, -⟩
  · rw [heq] at h ⊢
    exact initLoggerCores_error_state w cfg prev _ e h
  · rw [heq] at h ⊢
    exact initLoggerCores_error_state w cfg prev _ e h
  · rw [heq]

theorem encoderOf_congr (c1 c2 : ZapConfig) (hF : c1.Format = c2.Format)
    (hE : c1.EncodeLevel = c2.EncodeLevel) (hS : c1.StacktraceKey = c2.StacktraceKey)
    (hC : c1.CustomLevelEncoder = c2.CustomLevelEncoder) :
    encoderOf c1 = encoderOf c2 := by
  simp [encoderOf, ZapConfig.EncoderConfig, ZapConfig.LevelEncoder, hF, hE, hS, hC]

theorem setupCoresLoop_cfg_congr (w : World) (c1 c2 : ZapConfig) (enc : Encoder)
    (hD : c1.Director = c2.Director) :
    ∀ ls, setupCoresLoop w c1 enc ls = setupCoresLoop w c2 enc ls := by
  intro ls
  induction ls with
  | nil => rfl
  | cons l rest ih =>
    simp only [setupCoresLoop, getLogWriter, hD, ih]

theorem setupCoresLoop_world_congr (w1 w2 : World) (cfg : ZapConfig) (enc : Encoder)
    (hO : w1.openOk = w2.openOk) :
    ∀ ls, setupCoresLoop w1 cfg enc ls = setupCoresLoop w2 cfg enc ls := by
  intro ls
  induction ls with
  | nil => rfl
  | cons l rest ih =>
    simp only [setupCoresLoop, getLogWriter, hO, ih]

theorem initLogger_cfg_congr (w : World) (c1 c2 : ZapConfig) (prev : Option LoggerState)
    (hF : c1.Format = c2.Format) (hD : c1.Director = c2.Director)
    (hE : c1.EncodeLevel = c2.EncodeLevel) (hS : c1.StacktraceKey = c2.StacktraceKey)
    (hC : c1.CustomLevelEncoder = c2.CustomLevelEncoder) :
    initLogger w c1 prev = initLogger w c2 prev := by
  have hsc : setupCores w c1 = setupCores w c2 := by
    unfold setupCores
    rw [encoderOf_congr c1 c2 hF hE hS hC]
    exact setupCoresLoop_cfg_congr w c1 c2 (encoderOf c2) hD levels
  have hic : ∀ dirEffs, initLoggerCores w c1 prev dirEffs = initLoggerCores w c2 prev dirEffs := by
    intro dirEffs
    unfold initLoggerCores
    rw [hsc]
  unfold initLogger
  rw [hD]
  rcases pathExists w.statDirector with ⟨ok, e⟩
  cases ok <;> cases w.mkdirOk <;> simp [hic]

theorem initLoggerCores_mkdir_filter (w : World) (cfg : ZapConfig)
    (prev : Option LoggerState) (dirEffs : List Effect) :
    (initLoggerCores w cfg prev dirEffs).effects.filter Effect.isMkdirLike =
      dirEffs.filter Effect.isMkdirLike := by
  rcases hsc : setupCores w cfg with ⟨openEffs, r⟩
  have hnil : openEffs.filter Effect.isMkdirLike = [] := by
    rw [List.filter_eq_nil_iff]
    intro e he
    have he2 : e ∈ (setupCoresLoop w cfg (encoderOf cfg) levels).1 := by
      rw [show (setupCoresLoop w cfg (encoderOf cfg) levels) = setupCores w cfg from rfl, hsc]
      exact he
    obtain ⟨l, -, rfl⟩ := setupCoresLoop_effects w cfg (encoderOf cfg) levels e he2
    simp [openEffFor, Effect.isMkdirLike]
  cases r <;> simp [initLoggerCores, hsc, List.filter_append, hnil]

theorem initLogger_ok_opens (w : World) (cfg : ZapConfig) (prev : Option LoggerState)
    (hok : (initLogger w cfg prev).result = Except.ok ()) :
    (initLogger w cfg prev).effects.filter Effect.isOpenFile =
      levels.map (openEffFor cfg) := by
  rcases initLogger_cases w cfg prev with ⟨heq, -⟩ | ⟨heq, -, -⟩ | ⟨heq, -, -⟩
  · rw [heq] at hok ⊢
    rw [initLoggerCores_ok_effects w cfg prev _ hok]
    simp [List.filter_append, levels, openEffFor, Effect.isOpenFile]
  · rw [heq] at hok ⊢
    rw [initLoggerCores_ok_effects w cfg prev _ hok]
    simp [List.filter_append, levels, openEffFor, Effect.isOpenFile]
  · rw [heq] at hok
    simp at hok

theorem initLogger_effects_shape (w : World) (cfg : ZapConfig)
    (prev : Option LoggerState) :
    ∀ e ∈ (initLogger w cfg prev).effects, e.isOpenFile = true →
      ∃ l ∈ levels, e = openEffFor cfg l := by
  intro e he hopen
  rcases initLogger_cases w cfg prev with ⟨heq, -⟩ | ⟨heq, -, -⟩ | ⟨heq, -, -⟩
  · rw [heq] at he
    rcases initLoggerCores_effects_shape w cfg prev _ e he with hd | h
    · simp only [List.mem_singleton] at hd
      subst hd
      simp [Effect.isOpenFile] at hopen
    · exact h
  · rw [heq] at he
    rcases initLoggerCores_effects_shape w cfg prev _ e he with hd | h
    · simp only [List.mem_cons, List.mem_singleton, List.not_mem_nil, or_false] at hd
      rcases hd with hd | hd <;> subst hd <;> simp [Effect.isOpenFile] at hopen
    · exact h
  · rw [heq] at he
    simp only [List.mem_cons, List.mem_singleton, List.not_mem_nil, or_false] at he
    rcases he with he | he <;> subst he <;> simp [Effect.isOpenFile] at hopen

/-- A world where the directory exists and every open succeeds. -/
def worldAllOk : World := ⟨.ok, true, fun _ => true⟩

/-- A world where the directory exists but every file open fails. -/
def worldOpenFail : World := ⟨.ok, true, fun _ => false⟩

/-- A world where the stat on the directory fails with an error other than
not-exist. -/
def worldStatErr : World := ⟨.otherError, true, fun _ => true⟩

/-- A world where the directory does not exist and creation succeeds. -/
def worldNoDir : World := ⟨.notExist, true, fun _ => true⟩

/-- A sample configuration. -/
def cfgSample : ZapConfig :=
  ⟨"info", "app", "json", "log", "capital", "stacktrace", true, true, 7, false⟩

/-- The logger state a successful build installs for `cfgSample`. -/
def stSample : LoggerState :=
  ⟨levels.map (coreFor cfgSample (encoderOf cfgSample)), true⟩

/-- C1: For every log record routed by the built multi-core logger, the
record is written to at most one underlying core: exactly the core whose
assigned severity equals the record's severity.  On any successful build,
filtering the installed cores by their level-enabler predicate at severity
`lvl` leaves exactly one core, the one assigned `lvl`, and every core
assigned a different severity rejects the record. -/
theorem claim1_strict_level_routing (w : World) (cfg : ZapConfig)
    (prev : Option LoggerState) (st : LoggerState)
    (hok : (initLogger w cfg prev).result = Except.ok ())
    (hst : (initLogger w cfg prev).newState = some st) (lvl : Level) :
    (st.cores.filter (fun core => core.enabledFor lvl)).map Core.enabledLevel = [lvl] ∧
    ∀ core ∈ st.cores, core.enabledLevel ≠ lvl → core.enabledFor lvl = false := by
  have hs := initLogger_ok_state w cfg prev hok
  rw [hs] at hst
  injection hst with hst
  subst hst
  constructor
  · cases lvl <;> rfl
  · intro core hc hne
    simp only [Core.enabledFor, beq_eq_false_iff_ne, ne_eq]
    exact fun h => hne h.symm

theorem claim1_witness :
    (stSample.cores.filter (fun core => core.enabledFor Level.info)).map Core.enabledLevel
      = [Level.info] :=
  (claim1_strict_level_routing worldAllOk cfgSample none stSample (by rfl) (by rfl)
    Level.info).1

/-- C2 counterexample: the claim says a successful build yields exactly six
per-level sinks/cores, but the code enumerates seven zapcore levels
(`DPanicLevel` and `PanicLevel` are both present): a successful build
installs seven cores. -/
theorem claim2_counterexample :
    (initLogger worldAllOk cfgSample none).result = Except.ok () ∧
    (initLogger worldAllOk cfgSample none).newState = some stSample ∧
    stSample.cores.length = 7 ∧ stSample.cores.length ≠ 6 :=
  ⟨rfl, rfl, rfl, by decide⟩

/-- C2 (amended): the build iterates exactly the seven zapcore severities
Debug, Info, Warn, Error, DPanic, Panic, Fatal, in that order, opening one
sink and constructing one core per value: a successful build installs seven
cores whose assigned levels are exactly that enumeration in order, and the
file opens performed are exactly one per severity, in the same order. -/
theorem claim2_seven_levels (w : World) (cfg : ZapConfig)
    (prev : Option LoggerState) (st : LoggerState)
    (hok : (initLogger w cfg prev).result = Except.ok ())
    (hst : (initLogger w cfg prev).newState = some st) :
    st.cores.map Core.enabledLevel = levels ∧
    st.cores.length = 7 ∧
    (initLogger w cfg prev).effects.filter Effect.isOpenFile =
      levels.map (openEffFor cfg) := by
  have hs := initLogger_ok_state w cfg prev hok
  rw [hs] at hst
  injection hst with hst
  subst hst
  refine ⟨?_, ?_, initLogger_ok_opens w cfg prev hok⟩
  · simp [levels, coreFor]
  · simp [levels]

theorem claim2_witness :
    stSample.cores.map Core.enabledLevel = levels :=
  (claim2_seven_levels worldAllOk cfgSample none stSample (by rfl) (by rfl)).1

/-- C3: a failed initialization returns the error to the caller and leaves
the process-wide logger unchanged (no partial or degraded logger is
installed), and the per-level loop aborts on the first sink-open failure,
performing no further opens and returning the wrapped error. -/
theorem claim3_abort_on_failure (w : World) (cfg : ZapConfig)
    (prev : Option LoggerState) :
    (∀ e, (initLogger w cfg prev).result = Except.error e →
      (initLogger w cfg prev).newState = prev) ∧
    (∀ enc l rest, w.openOk (filepathJoin cfg.Director (l.string ++ ".log")) = false →
      setupCoresLoop w cfg enc (l :: rest) =
        ([openEffFor cfg l],
          Except.error ("failed to create log file for level " ++ l.string ++ ": " ++
            ("open " ++ filepathJoin cfg.Director (l.string ++ ".log"))))) := by
  constructor
  · intro e h
    exact initLogger_error_state w cfg prev e h
  · intro enc l rest hopen
    simp [setupCoresLoop, getLogWriter, hopen, openEffFor]

theorem claim3_witness :
    (initLogger worldOpenFail cfgSample none).newState = none :=
  (claim3_abort_on_failure worldOpenFail cfgSample none).1
    "failed to create log file for level debug: open log/debug.log" (by rfl)

/-- A configuration with the custom-bracketed level-encoder flag set while
the named style `lowercase` is configured alongside it. -/
def cfgCustomLevel : ZapConfig :=
  ⟨"info", "app", "console", "log", "lowercase", "st", false, false, 7, true⟩

/-- C4: whenever the custom-level-encoder flag is set, the rendered level
token for every severity is `[` + the uppercase severity name + `]`,
regardless of which named style is configured in `EncodeLevel`. -/
theorem claim4_custom_bracketed (cfg : ZapConfig)
    (h : cfg.CustomLevelEncoder = true) (l : Level) :
    renderLevel cfg.LevelEncoder l = "[" ++ l.capitalString ++ "]" := by
  simp [ZapConfig.LevelEncoder, h, renderLevel]

theorem claim4_witness :
    renderLevel cfgCustomLevel.LevelEncoder Level.warn
      = "[" ++ Level.capitalString Level.warn ++ "]" :=
  claim4_custom_bracketed cfgCustomLevel (by rfl) Level.warn

/-- C5: if the stat on the configured directory reports it exists, no
directory creation (single-level or recursive) is performed; if it reports
not-exist, exactly one single-level `os.Mkdir` at exactly that path (and
never a recursive mkdir-all) is performed, and if that creation fails,
initialization aborts with an error and the global logger is unchanged. -/
theorem claim5_directory_handling (w : World) (cfg : ZapConfig)
    (prev : Option LoggerState) :
    (w.statDirector = StatResult.ok →
      (initLogger w cfg prev).effects.filter Effect.isMkdirLike = []) ∧
    (w.statDirector = StatResult.notExist →
      (initLogger w cfg prev).effects.filter Effect.isMkdirLike
        = [Effect.mkdir cfg.Director] ∧
      (w.mkdirOk = false →
        (initLogger w cfg prev).result =
          Except.error ("failed to create directory " ++ cfg.Director) ∧
        (initLogger w cfg prev).newState = prev)) := by
  constructor
  · intro h
    rcases initLogger_cases w cfg prev with ⟨heq, hp⟩ | ⟨heq, hp, -⟩ | ⟨heq, hp, -⟩
    · rw [heq, initLoggerCores_mkdir_filter]
      rfl
    · rw [h] at hp
      simp [pathExists] at hp
    · rw [h] at hp
      simp [pathExists] at hp
  · intro h
    rcases initLogger_cases w cfg prev with ⟨heq, hp⟩ | ⟨heq, -, hmk⟩ | ⟨heq, -, hmk⟩
    · rw [h] at hp
      simp [pathExists] at hp
    · constructor
      · rw [heq, initLoggerCores_mkdir_filter]
        rfl
      · intro hmf
        rw [hmk] at hmf
        exact absurd hmf (by simp)
    · constructor
      · rw [heq]
        rfl
      · intro _
        rw [heq]
        exact ⟨rfl, rfl⟩

theorem claim5_witness :
    (initLogger worldNoDir cfgSample none).effects.filter Effect.isMkdirLike
      = [Effect.mkdir cfgSample.Director] :=
  ((claim5_directory_handling worldNoDir cfgSample none).2 (by rfl)).1

/-- A configuration with an unrecognized level-rendering style and a
non-json format. -/
def cfgUnrecognized : ZapConfig :=
  ⟨"info", "app", "console", "log", "fancy", "st", false, false, 7, false⟩

/-- C6: the encoding policy is total: with the custom flag unset and an
`EncodeLevel` value that is none of the four named styles, the level
encoder falls back to the uppercase (capital) style; and whenever `Format`
is not `json`, the console (text) encoder is selected. -/
theorem claim6_total_fallbacks (cfg : ZapConfig) :
    (cfg.CustomLevelEncoder = false → cfg.EncodeLevel ≠ "lowercase" →
      cfg.EncodeLevel ≠ "capital" → cfg.EncodeLevel ≠ "lowercaseColor" →
      cfg.EncodeLevel ≠ "capitalColor" →
      cfg.LevelEncoder = LevelEncoderKind.capital) ∧
    (cfg.Format ≠ "json" →
      encoderOf cfg = Encoder.consoleEncoder cfg.EncoderConfig) := by
  constructor
  · intro h1 h2 h3 h4 h5
    simp [ZapConfig.LevelEncoder, h1, h2, h3, h4, h5]
  · intro h
    simp [encoderOf, h]

theorem claim6_witness :
    ZapConfig.LevelEncoder cfgUnrecognized = LevelEncoderKind.capital :=
  (claim6_total_fallbacks cfgUnrecognized).1 (by rfl) (by decide) (by decide)
    (by decide) (by decide)

/-- C7: on a successful initialization, the file opens performed are
exactly one per severity, at path `<Director>/<lowercase-name>.log`, in
append-only, create-if-missing, write-only mode with no truncation; and
every severity's canonical name is already lowercase. -/
theorem claim7_sink_open (w : World) (cfg : ZapConfig)
    (prev : Option LoggerState)
    (hok : (initLogger w cfg prev).result = Except.ok ()) :
    (initLogger w cfg prev).effects.filter Effect.isOpenFile =
      levels.map (fun l =>
        Effect.openFile (filepathJoin cfg.Director (l.string ++ ".log"))
          { append := true, create := true, writeOnly := true, truncate := false }) ∧
    ∀ l ∈ levels, l.string.data.map Char.toLower = l.string.data := by
  constructor
  · rw [initLogger_ok_opens w cfg prev hok]
    rfl
  · decide

theorem claim7_witness :
    (initLogger worldAllOk cfgSample none).effects.filter Effect.isOpenFile =
      levels.map (fun l =>
        Effect.openFile (filepathJoin cfgSample.Director (l.string ++ ".log"))
          { append := true, create := true, writeOnly := true, truncate := false }) :=
  (claim7_sink_open worldAllOk cfgSample none (by rfl)).1

/-- The sample configuration with the show-line flag disabled. -/
def cfgNoShowLine : ZapConfig :=
  ⟨"info", "app", "json", "log", "capital", "stacktrace", false, true, 7, false⟩

/-- The logger state a successful build installs for `cfgNoShowLine`. -/
def stNoShowLine : LoggerState :=
  ⟨levels.map (coreFor cfgNoShowLine (encoderOf cfgNoShowLine)), true⟩

/-- C8 counterexample: the claim says caller rendering is included only
when the show-line flag is enabled, but with `ShowLine = false` the build
still installs the logger with caller capture on (`zap.AddCaller()` is
passed unconditionally) and the encoder configuration still carries the
caller key and the short caller encoder. -/
theorem claim8_counterexample :
    cfgNoShowLine.ShowLine = false ∧
    (initLogger worldAllOk cfgNoShowLine none).result = Except.ok () ∧
    (initLogger worldAllOk cfgNoShowLine none).newState = some stNoShowLine ∧
    stNoShowLine.addCaller = true ∧
    cfgNoShowLine.EncoderConfig.callerKey = "caller" ∧
    cfgNoShowLine.EncoderConfig.encodeCaller = CallerEncoderKind.short :=
  ⟨rfl, rfl, rfl, rfl, rfl, rfl⟩

/-- C8 (amended): caller (source-location) rendering is always included:
every successful build installs the logger with caller capture enabled and
an encoder configuration carrying the caller key and the shortened-path
caller encoder, and the show-line flag has no effect whatsoever on
initialization. -/
theorem claim8_caller_unconditional (w : World) (cfg : ZapConfig)
    (prev : Option LoggerState) (st : LoggerState)
    (hok : (initLogger w cfg prev).result = Except.ok ())
    (hst : (initLogger w cfg prev).newState = some st) :
    st.addCaller = true ∧
    cfg.EncoderConfig.callerKey = "caller" ∧
    cfg.EncoderConfig.encodeCaller = CallerEncoderKind.short ∧
    ∀ b, initLogger w { cfg with ShowLine := b } prev = initLogger w cfg prev := by
  have hs := initLogger_ok_state w cfg prev hok
  rw [hs] at hst
  injection hst with hst
  subst hst
  refine ⟨rfl, rfl, rfl, ?_⟩
  intro b
  exact initLogger_cfg_congr w _ cfg prev rfl rfl rfl rfl rfl

theorem claim8_witness :
    stSample.addCaller = true :=
  (claim8_caller_unconditional worldAllOk cfgSample none stSample (by rfl) (by rfl)).1

/-- A configuration differing from `cfgVariantB` only in the Level, Prefix,
LogInConsole, and RetentionDay fields. -/
def cfgVariantA : ZapConfig :=
  ⟨"debug", "A", "json", "log", "capital", "st", true, false, 3, false⟩

/-- A configuration differing from `cfgVariantA` only in the Level, Prefix,
LogInConsole, and RetentionDay fields. -/
def cfgVariantB : ZapConfig :=
  ⟨"error", "B", "json", "log", "capital", "st", true, true, 30, false⟩

/-- C9: two configurations that differ only in the severity-threshold
(Level), Prefix, LogInConsole, or RetentionDay fields yield observably
identical initializations (same effects, same installed logger, same
result); and every file open performed targets one of the seven per-level
log files — in particular no console sink is ever created, regardless of
the console flag. -/
theorem claim9_unused_fields_noninterference (w : World)
    (prev : Option LoggerState) (c1 c2 : ZapConfig)
    (hF : c1.Format = c2.Format) (hD : c1.Director = c2.Director)
    (hE : c1.EncodeLevel = c2.EncodeLevel)
    (hS : c1.StacktraceKey = c2.StacktraceKey)
    (_hSL : c1.ShowLine = c2.ShowLine)
    (hC : c1.CustomLevelEncoder = c2.CustomLevelEncoder) :
    initLogger w c1 prev = initLogger w c2 prev ∧
    (∀ e ∈ (initLogger w c1 prev).effects, e.isOpenFile = true →
      ∃ l ∈ levels, e = openEffFor c1 l) := by
  exact ⟨initLogger_cfg_congr w c1 c2 prev hF hD hE hS hC,
    initLogger_effects_shape w c1 prev⟩

theorem claim9_witness :
    initLogger worldAllOk cfgVariantA none = initLogger worldAllOk cfgVariantB none :=
  (claim9_unused_fields_noninterference worldAllOk none cfgVariantA cfgVariantB
    rfl rfl rfl rfl rfl rfl).1

/-- C10: when the stat on the configured directory fails with an error
other than not-exist, `pathExists` reports that error but `initLogger`
discards it: the whole run is identical to one where the path simply does
not exist, and in particular a single-level directory creation is attempted
instead of the stat error being surfaced. -/
theorem claim10_stat_error_discarded (w : World) (cfg : ZapConfig)
    (prev : Option LoggerState) (h : w.statDirector = StatResult.otherError) :
    (pathExists w.statDirector).2.isSome = true ∧
    initLogger w cfg prev =
      initLogger { w with statDirector := StatResult.notExist } cfg prev ∧
    Effect.mkdir cfg.Director ∈ (initLogger w cfg prev).effects := by
  have hic : ∀ dirEffs, initLoggerCores w cfg prev dirEffs =
      initLoggerCores { w with statDirector := StatResult.notExist } cfg prev dirEffs := by
    intro dirEffs
    unfold initLoggerCores setupCores
    rw [setupCoresLoop_world_congr w { w with statDirector := StatResult.notExist }
      cfg (encoderOf cfg) rfl levels]
  refine ⟨by rw [h]; rfl, ?_, ?_⟩
  · unfold initLogger
    rw [h]
    cases hmk : w.mkdirOk <;> simp [pathExists, hmk, hic]
  · unfold initLogger
    rw [h]
    cases hmk : w.mkdirOk
    · simp [pathExists, hmk]
    · simp only [pathExists, hmk, if_true, if_false]
      rcases hsc : setupCores w cfg with ⟨openEffs, r⟩
      cases r <;> simp [initLoggerCores, hsc]

theorem claim10_witness :
    initLogger worldStatErr cfgSample none =
      initLogger { worldStatErr with statDirector := StatResult.notExist }
        cfgSample none :=
  (claim10_stat_error_discarded worldStatErr cfgSample none (by rfl)).2.1
